import Mathlib

/-!
Shallow embedding of src/indirect.h: a value-semantic container that owns
one heap object through a type-erased control block. Machine addresses are
natural numbers handed out by a monotone allocator; each object carries a
dynamic type tag and an integer payload. Copy strategies are modelled by
the default copier family of the source: the default copier for a static
type U produces a fresh object whose dynamic type is the tag of U, so
slicing becomes visible as a change of tag. Deletion strategies release
the referent, as the default deleter does. Exceptions raised by the
underlying allocation and copy steps are driven by explicit failure-point
parameters; an exceptional outcome records the container state and the
heap after stack unwinding.
-/

/-- A heap object: its dynamic type tag plus its payload value. -/
structure Obj where
  dynTy : Nat
  val : Int
deriving DecidableEq, Repr

/-- The heap: an association list from addresses to objects, plus the next
fresh address. Lookup returns the most recently allocated entry first. -/
structure Heap where
  mem : List (Nat × Obj)
  next : Nat
deriving DecidableEq, Repr

/-- Allocate a fresh object and return its address. -/
def Heap.alloc (h : Heap) (o : Obj) : Nat × Heap :=
  (h.next, ⟨(h.next, o) :: h.mem, h.next + 1⟩)

/-- Read the object stored at an address. -/
def Heap.lookup (h : Heap) (a : Nat) : Option Obj :=
  (h.mem.find? (fun q => q.1 == a)).map Prod.snd

/-- Release the storage at an address. -/
def Heap.free (h : Heap) (a : Nat) : Heap :=
  ⟨h.mem.filter (fun q => q.1 != a), h.next⟩

/-- The copy strategy of src/indirect.h lines 9-17: the default copier for
a static type U copies the referent at static type U, so the fresh object
carries the tag of U whatever the dynamic type of the source was. -/
inductive Copier where
  | default (ty : Nat)
deriving DecidableEq, Repr

/-- Run a copier on an object, producing the object the fresh allocation
will hold. -/
def Copier.run : Copier → Obj → Obj
  | .default ty, o => ⟨ty, o.val⟩

/-- The type-erased ownership cell hierarchy of src/indirect.h lines
28-105. pointer models pointer_control_block with the tag of its static
payload type U, the stored copier, a deleter tag and the owned address
(lines 36-60). direct models direct_control_block with the address of its
inline object (lines 62-82). delegating models delegating_control_block
over an inner cell (lines 84-105); delegatingNull is a delegating cell
whose delegate is the null unique_ptr, the state produced by the
converting operations when the source container is empty. -/
inductive control_block where
  | pointer (ty : Nat) (c : Copier) (dl : Nat) (addr : Nat)
  | direct (addr : Nat)
  | delegating (inner : control_block)
  | delegatingNull
deriving DecidableEq, Repr

/-- The ptr member of each control block variant (lines 56-59, 78-81,
101-104). A delegating cell with a null delegate dereferences a null
unique_ptr in the source; the none result here is a junk value standing
for that undefined behavior. -/
def control_block.ptrAddr : control_block → Option Nat
  | .pointer _ _ _ a => some a
  | .direct a => some a
  | .delegating inner => inner.ptrAddr
  | .delegatingNull => none

/-- Destruction of a control block releases the storage it owns: the
pointer cell runs its deleter on the referent, the direct cell destroys
its inline object together with the cell, the delegating cell destroys its
delegate. -/
def control_block.destroy : control_block → Heap → Heap
  | .pointer _ _ _ a, h => h.free a
  | .direct a, h => h.free a
  | .delegating inner, h => inner.destroy h
  | .delegatingNull, h => h

/-- Destroy the control block held by a unique_ptr that may be null. -/
def destroyOpt : Option control_block → Heap → Heap
  | none, h => h
  | some cb, h => cb.destroy h

/-- Failure points of a clone call. objCopy: the copy of the payload
object itself fails, either because its allocation fails or because the
payload copy constructor throws, in which case the new-expression releases
the storage again. cbAlloc: the payload copy succeeded and then allocating
the new control block fails. inner f: the failure happens inside the clone
performed by the delegate of a delegating cell. -/
inductive FailPt where
  | objCopy
  | cbAlloc
  | inner (f : FailPt)
deriving DecidableEq, Repr

/-- The clone member of each control block variant, with an optional
failure point. An error result carries the heap after stack unwinding.

pointer (lines 49-54): the copier produces a raw pointer to a fresh copy
and that raw pointer is handed to the allocation of the new control block;
if the payload copy itself fails nothing survives, but if the control
block allocation fails after the copy succeeded, the raw copy is released
by nobody and stays in the heap.

direct (lines 73-76): a single allocation constructs the new cell together
with its inline object, so any failure releases everything.

delegating (lines 96-99): the delegate is cloned into a unique_ptr
temporary and then the wrapper cell is allocated; if the wrapper
allocation fails, unwinding destroys the temporary and the inner clone is
released. Cloning a delegating cell with a null delegate dereferences a
null unique_ptr in the source; the error result there is a junk value
standing for that undefined behavior, unreachable from the theorems
below. -/
def control_block.clone (fail : Option FailPt) : control_block → Heap → Except Heap (control_block × Heap)
  | .pointer ty c dl a, h =>
    match h.lookup a with
    | none => .error h
    | some o =>
      match fail with
      | some .objCopy => .error h
      | some .cbAlloc => .error (h.alloc (c.run o)).2
      | _ =>
        let (a2, h2) := h.alloc (c.run o)
        .ok (.pointer ty c dl a2, h2)
  | .direct a, h =>
    match h.lookup a with
    | none => .error h
    | some o =>
      match fail with
      | some .objCopy => .error h
      | some .cbAlloc => .error h
      | _ =>
        let (a2, h2) := h.alloc o
        .ok (.direct a2, h2)
  | .delegating inner, h =>
    match fail with
    | some (.inner f) =>
      match inner.clone (some f) h with
      | .error h2 => .error h2
      | .ok (icb, h2) => .ok (.delegating icb, h2)
    | some .cbAlloc =>
      match inner.clone none h with
      | .error h2 => .error h2
      | .ok (icb, h2) => .error (icb.destroy h2)
    | _ =>
      match inner.clone none h with
      | .error h2 => .error h2
      | .ok (icb, h2) => .ok (.delegating icb, h2)
  | .delegatingNull, h => .error h

/-- The container of src/indirect.h lines 111-335: a cached raw pointer to
the owned object and a uniquely owned control block, each possibly null.
Default construction (line 134) gives both fields none. -/
structure indirect where
  ptr_ : Option Nat
  cb_ : Option control_block
deriving DecidableEq, Repr

/-- Operator bool (lines 295-298): true iff the control block is non-null. -/
def indirect.toBool (i : indirect) : Bool :=
  i.cb_.isSome

/-- The empty member (lines 300-303). -/
def indirect.empty (i : indirect) : Bool :=
  i.cb_.isNone

/-- The adopting constructor (lines 140-155) for a payload of static type
tag ty: a null pointer gives the empty container; otherwise the source
asserts that the dynamic type of the referent equals U exactly and then
builds a pointer control block storing the supplied copier and deleter.
The none result models the tripped assertion (and, when the pointer is
dangling, the undefined dereference inside the assertion). -/
def indirect.adopt (ty : Nat) (u : Option Nat) (c : Copier) (dl : Nat) (h : Heap) : Option indirect :=
  match u with
  | none => some ⟨none, none⟩
  | some a =>
    match h.lookup a with
    | none => none
    | some o =>
      if o.dynTy = ty then some ⟨some a, some (.pointer ty c dl a)⟩
      else none

/-- The same-type copy constructor (lines 161-170): an empty source gives
an empty result, otherwise the source cell is cloned and adopted. A thrown
clone propagates out of the constructor, leaving only the heap behind. -/
def indirect.copy_ctor (fail : Option FailPt) (p : indirect) (h : Heap) : Except Heap (indirect × Heap) :=
  match p.cb_ with
  | none => .ok (⟨none, none⟩, h)
  | some cb =>
    match cb.clone fail h with
    | .error h2 => .error h2
    | .ok (cb2, h2) => .ok (⟨cb2.ptrAddr, some cb2⟩, h2)

/-- Wrapping a unique_ptr to a control block, possibly null, in a fresh
delegating cell, as the converting operations do (lines 179, 199, 259). -/
def mkDelegating : Option control_block → control_block
  | none => .delegatingNull
  | some cb => .delegating cb

/-- The converting copy constructor (lines 172-180): copy the source into
a temporary of the source type, then take its pointer and wrap its cell,
even when that cell is null, in a delegating cell. -/
def indirect.convert_copy_ctor (fail : Option FailPt) (p : indirect) (h : Heap) : Except Heap (indirect × Heap) :=
  match indirect.copy_ctor fail p h with
  | .error h2 => .error h2
  | .ok (tmp, h2) => .ok (⟨tmp.ptr_, some (mkDelegating tmp.cb_)⟩, h2)

/-- The same-type move constructor (lines 186-191): steal the pointer and
the cell, null the source pointer. Returns the new container and the
source afterwards; no heap interaction happens at all. -/
def indirect.move_ctor (p : indirect) : indirect × indirect :=
  (⟨p.ptr_, p.cb_⟩, ⟨none, none⟩)

/-- The converting move constructor (lines 193-201): steal the pointer,
wrap the stolen cell, even when it is null, in a delegating cell, null the
source pointer. -/
def indirect.convert_move_ctor (p : indirect) : indirect × indirect :=
  (⟨p.ptr_, some (mkDelegating p.cb_)⟩, ⟨none, none⟩)

/-- Outcome of a mutating member call on a container: either the call
returns with the new container state, or an exception escapes and the
container state after unwinding is recorded. -/
inductive OpResult where
  | ok (i : indirect) (h : Heap)
  | thrown (i : indirect) (h : Heap)
deriving DecidableEq, Repr

/-- The same-type copy assignment (lines 207-225). same models the address
identity test of line 209. An empty source resets this container,
destroying the old cell. Otherwise the source cell is cloned first; only
after the clone returned are the pointer and the cell of this container
replaced, the old cell being destroyed by the unique_ptr assignment. A
thrown clone leaves this container untouched. -/
def indirect.copy_assign (fail : Option FailPt) (same : Bool) (self p : indirect) (h : Heap) : OpResult :=
  if same then .ok self h
  else
    match p.cb_ with
    | none => .ok ⟨none, none⟩ (destroyOpt self.cb_ h)
    | some cb =>
      match cb.clone fail h with
      | .error h2 => .thrown self h2
      | .ok (cb2, h2) => .ok ⟨cb2.ptrAddr, some cb2⟩ (destroyOpt self.cb_ h2)

/-- The same-type move assignment (lines 241-252). same models the address
identity test. Otherwise the old cell of this container is destroyed by
the unique_ptr move assignment, the pointer and cell of the source are
taken over, and the source pointer is nulled. Returns this container, the
source afterwards, and the heap; no clone is invoked and nothing is
allocated. -/
def indirect.move_assign (same : Bool) (self p : indirect) (h : Heap) : indirect × indirect × Heap :=
  if same then (self, p, h)
  else (⟨p.ptr_, p.cb_⟩, ⟨none, none⟩, destroyOpt self.cb_ h)

/-- The converting move assignment (lines 254-263): wrap the stolen cell,
even when it is null, in a delegating cell, destroy the old cell of this
container, take the source pointer and null it. -/
def indirect.convert_move_assign (self p : indirect) (h : Heap) : indirect × indirect × Heap :=
  (⟨p.ptr_, some (mkDelegating p.cb_)⟩, ⟨none, none⟩, destroyOpt self.cb_ h)

/-- The converting copy assignment (lines 227-235): copy the source into a
temporary of the source type, then move-assign the temporary into this
container through the converting move assignment. -/
def indirect.convert_copy_assign (fail : Option FailPt) (self p : indirect) (h : Heap) : OpResult :=
  match indirect.copy_ctor fail p h with
  | .error h2 => .thrown self h2
  | .ok (tmp, h2) =>
    match indirect.convert_move_assign self tmp h2 with
    | (s2, _, h3) => .ok s2 h3

/-- The member swap (lines 269-274): exchange the pointers and the cells
of the two containers. Returns both containers afterwards; no heap
interaction happens at all. -/
def indirect.swap (a p : indirect) : indirect × indirect :=
  (⟨p.ptr_, p.cb_⟩, ⟨a.ptr_, a.cb_⟩)

/-- The non-member swap (lines 353-357), which calls the member swap. -/
def swap (t u : indirect) : indirect × indirect :=
  indirect.swap t u

/-- The emplace member (lines 276-283) constructing a payload with tag ty
and value v: a fresh direct cell is allocated and constructed first; only
then the pointer is taken from it and the old cell is destroyed by the
unique_ptr move assignment. throws models the payload constructor of the
new cell throwing, in which case the new-expression releases the fresh
storage again and the container is untouched. -/
def indirect.emplace (throws : Bool) (ty : Nat) (v : Int) (self : indirect) (h : Heap) : OpResult :=
  let (a, h1) := h.alloc ⟨ty, v⟩
  if throws then .thrown self (h1.free a)
  else .ok ⟨some a, some (.direct a)⟩ (destroyOpt self.cb_ h1)

/-- The clear member (lines 285-289): destroy the cell, null the pointer. -/
def indirect.clear (self : indirect) (h : Heap) : indirect × Heap :=
  (⟨none, none⟩, destroyOpt self.cb_ h)

/-- Outcome of calling an accessor: the debug assertion trips, or the call
is flatly undefined with no assertion in the way, or it yields the address
of the owned object. -/
inductive AccessOutcome where
  | assertFail
  | undef
  | ok (a : Nat)
deriving DecidableEq, Repr

/-- The const arrow operator (lines 305-309): assert on the pointer, then
return it. On an empty container the assertion trips. -/
def indirect.arrow_const (i : indirect) : AccessOutcome :=
  match i.ptr_ with
  | none => .assertFail
  | some a => .ok a

/-- The mutable arrow operator (lines 321-324): return the pointer with no
assertion; using the null result on an empty container is undefined. -/
def indirect.arrow_mut (i : indirect) : AccessOutcome :=
  match i.ptr_ with
  | none => .undef
  | some a => .ok a

/-- The const value member (lines 311-314): dereference the pointer with
no assertion; on an empty container this is a null dereference. -/
def indirect.value_const (i : indirect) : AccessOutcome :=
  match i.ptr_ with
  | none => .undef
  | some a => .ok a

/-- The mutable value member (lines 326-329): dereference the pointer with
no assertion. -/
def indirect.value_mut (i : indirect) : AccessOutcome :=
  match i.ptr_ with
  | none => .undef
  | some a => .ok a

/-- The const star operator (lines 316-319): dereference the pointer with
no assertion; on an empty container this is a null dereference. -/
def indirect.star_const (i : indirect) : AccessOutcome :=
  match i.ptr_ with
  | none => .undef
  | some a => .ok a

/-- The mutable star operator (lines 331-334): dereference the pointer
with no assertion. -/
def indirect.star_mut (i : indirect) : AccessOutcome :=
  match i.ptr_ with
  | none => .undef
  | some a => .ok a

/-- The factory function make_indirect (lines 340-347) for a payload with
tag ty and value v: construct a direct cell in place and take its pointer.
The returned move leaves the local container empty and transfers both
fields unchanged, so the result is modelled directly. -/
def make_indirect (ty : Nat) (v : Int) (h : Heap) : indirect × Heap :=
  let (a, h1) := h.alloc ⟨ty, v⟩
  (⟨some a, some (.direct a)⟩, h1)

/-- The payload value reachable from the cached pointer of a container. -/
def indirect.valOf (i : indirect) (h : Heap) : Option Int :=
  (i.ptr_.bind h.lookup).map Obj.val

/-- The dynamic type tag reachable from the cached pointer of a container. -/
def indirect.dynTyOf (i : indirect) (h : Heap) : Option Nat :=
  (i.ptr_.bind h.lookup).map Obj.dynTy

/-- A control block every one of whose owned addresses is live in the heap
and whose delegate chain never ends in a null delegate: the states in
which the source may legally clone it. -/
inductive Live : control_block → Heap → Prop where
  | pointer {h : Heap} {ty dl a : Nat} {c : Copier} {o : Obj}
      (hl : h.lookup a = some o) : Live (.pointer ty c dl a) h
  | direct {h : Heap} {a : Nat} {o : Obj}
      (hl : h.lookup a = some o) : Live (.direct a) h
  | delegating {h : Heap} {cb : control_block}
      (hi : Live cb h) : Live (.delegating cb) h

/-- A control block that records, at every pointer cell, the dynamic type
of its referent as the static type of the cell with the default copier of
that same type: the shape produced by adoption, whose assertion equates
the static and dynamic types, and preserved by cloning and delegation. -/
inductive HoldsTy : control_block → Heap → Nat → Prop where
  | pointer {h : Heap} {ty dl a : Nat} {o : Obj}
      (hl : h.lookup a = some o) (hty : o.dynTy = ty) :
      HoldsTy (.pointer ty (.default ty) dl a) h ty
  | direct {h : Heap} {ty a : Nat} {o : Obj}
      (hl : h.lookup a = some o) (hty : o.dynTy = ty) :
      HoldsTy (.direct a) h ty
  | delegating {h : Heap} {ty : Nat} {cb : control_block}
      (hi : HoldsTy cb h ty) : HoldsTy (.delegating cb) h ty

/-- Lookup finds a freshly prepended entry. -/
theorem Heap.lookup_cons_self (m : List (Nat × Obj)) (k n : Nat) (o : Obj) :
    Heap.lookup ⟨(n, o) :: m, k⟩ n = some o := by
  simp [Heap.lookup, List.find?]

/-- A successful lookup in a well-formed heap is below the allocation
counter. -/
theorem Heap.lookup_lt_next {h : Heap} {a : Nat} {o : Obj}
    (hw : ∀ q ∈ h.mem, q.1 < h.next) (hl : h.lookup a = some o) : a < h.next := by
  unfold Heap.lookup at hl
  cases hf : h.mem.find? (fun q => q.1 == a) with
  | none => simp [hf] at hl
  | some q =>
    have hm := List.mem_of_find?_eq_some hf
    have hp := List.find?_some hf
    have hqa : q.1 = a := by simpa using hp
    exact hqa ▸ hw q hm

/-- Destroying a control block never advances the allocation counter. -/
theorem control_block.destroy_next (cb : control_block) (h : Heap) :
    (cb.destroy h).next = h.next := by
  induction cb generalizing h with
  | pointer ty c dl a => simp [control_block.destroy, Heap.free]
  | direct a => simp [control_block.destroy, Heap.free]
  | delegating inner ih => simpa [control_block.destroy] using ih h
  | delegatingNull => simp [control_block.destroy]

/-- Destroying an optional control block never advances the allocation
counter. -/
theorem destroyOpt_next (c : Option control_block) (h : Heap) :
    (destroyOpt c h).next = h.next := by
  cases c with
  | none => rfl
  | some cb => simpa [destroyOpt] using control_block.destroy_next cb h

/-- A control block that records the dynamic type of its referent reaches,
through its ptr member, an object of that dynamic type. -/
theorem holdsTy_ptrAddr {cb : control_block} {h : Heap} {ty : Nat}
    (hh : HoldsTy cb h ty) :
    ∃ a o, cb.ptrAddr = some a ∧ h.lookup a = some o ∧ o.dynTy = ty := by
  induction hh with
  | pointer hl hty => exact ⟨_, _, rfl, hl, hty⟩
  | direct hl hty => exact ⟨_, _, rfl, hl, hty⟩
  | delegating hi ih =>
    obtain ⟨a, o, hpa, hl, hty⟩ := ih
    exact ⟨a, o, by simp [control_block.ptrAddr, hpa], hl, hty⟩

/-- Cloning preserves the recorded dynamic type: the fresh cell again
holds an object of the same dynamic type in the grown heap. -/
theorem clone_holdsTy {cb : control_block} {h : Heap} {ty : Nat}
    (hh : HoldsTy cb h ty) :
    ∃ cb2 h2, cb.clone none h = .ok (cb2, h2) ∧ HoldsTy cb2 h2 ty := by
  induction hh with
  | @pointer h ty dl a o hl hty =>
    refine ⟨.pointer ty (.default ty) dl h.next,
      ⟨(h.next, ⟨ty, o.val⟩) :: h.mem, h.next + 1⟩, ?_, ?_⟩
    · simp [control_block.clone, hl, Heap.alloc, Copier.run]
    · exact HoldsTy.pointer (Heap.lookup_cons_self ..) rfl
  | @direct h ty a o hl hty =>
    refine ⟨.direct h.next, ⟨(h.next, o) :: h.mem, h.next + 1⟩, ?_, ?_⟩
    · simp [control_block.clone, hl, Heap.alloc]
    · exact HoldsTy.direct (Heap.lookup_cons_self ..) hty
  | delegating hi ih =>
    obtain ⟨cb2, h2, hc, hh2⟩ := ih
    exact ⟨.delegating cb2, h2, by simp [control_block.clone, hc],
      HoldsTy.delegating hh2⟩

/-- Cloning a live control block succeeds, allocates exactly one fresh
object carrying the same payload value, and the fresh cell points at the
fresh address. -/
theorem clone_fresh {cb : control_block} {h : Heap} (hv : Live cb h) :
    ∃ cb2 a o o2, cb.ptrAddr = some a ∧ h.lookup a = some o ∧ o2.val = o.val ∧
      cb.clone none h = .ok (cb2, ⟨(h.next, o2) :: h.mem, h.next + 1⟩) ∧
      cb2.ptrAddr = some h.next := by
  induction hv with
  | @pointer h ty dl a c o hl =>
    refine ⟨.pointer ty c dl h.next, a, o, c.run o, rfl, hl, ?_, ?_, rfl⟩
    · cases c with
      | default ty2 => simp [Copier.run]
    · simp [control_block.clone, hl, Heap.alloc]
  | @direct h a o hl =>
    exact ⟨.direct h.next, a, o, o, rfl, hl, rfl,
      by simp [control_block.clone, hl, Heap.alloc], rfl⟩
  | delegating hi ih =>
    obtain ⟨cb2, a, o, o2, hpa, hl, hval, hc, hpa2⟩ := ih
    exact ⟨.delegating cb2, a, o, o2, by simpa [control_block.ptrAddr] using hpa,
      hl, hval, by simp [control_block.clone, hc],
      by simpa [control_block.ptrAddr] using hpa2⟩

/-- Claim C1: the cached pointer is null iff the owned control block is
null after every public operation. The code violates this: converting move
assignment (src/indirect.h lines 254-263) and converting copy construction
(lines 172-180) from an empty source wrap the null source cell in a
delegating cell, leaving the control block non-null while the cached
pointer is null, so the container reports non-empty yet has no object. -/
theorem c1_convert_from_empty_breaks_invariant :
    indirect.convert_move_assign ⟨none, none⟩ ⟨none, none⟩ ⟨[], 0⟩ =
      (⟨none, some .delegatingNull⟩, ⟨none, none⟩, ⟨[], 0⟩) ∧
    indirect.convert_copy_ctor none ⟨none, none⟩ ⟨[], 0⟩ =
      .ok (⟨none, some .delegatingNull⟩, ⟨[], 0⟩) ∧
    (indirect.mk none (some .delegatingNull)).ptr_ = none ∧
    (indirect.mk none (some .delegatingNull)).cb_ ≠ none ∧
    (indirect.mk none (some .delegatingNull)).toBool = true := by
  exact ⟨rfl, rfl, rfl, by simp, rfl⟩

/-- Claim C2: for a non-empty container holding an object whose dynamic
type is recorded by its control block, copy-converting it into a container
of a base type and then copying that container again yields an owned
object of the same dynamic type: the delegating cell forwards cloning to
the inner cell, which copies at the recorded concrete type. -/
theorem c2_dynamic_type_survives_two_copies {p : indirect} {h : Heap}
    {cb : control_block} {dTy : Nat}
    (hcb : p.cb_ = some cb) (hh : HoldsTy cb h dTy) :
    ∃ b h1 b2 h2, indirect.convert_copy_ctor none p h = .ok (b, h1) ∧
      indirect.copy_ctor none b h1 = .ok (b2, h2) ∧
      b2.dynTyOf h2 = some dTy := by
  obtain ⟨cb1, h1, hc1, hh1⟩ := clone_holdsTy hh
  obtain ⟨cb2, h2, hc2, hh2⟩ := clone_holdsTy (HoldsTy.delegating hh1)
  obtain ⟨a2, o2, hpa, hlo, hdy⟩ := holdsTy_ptrAddr hh2
  refine ⟨⟨cb1.ptrAddr, some (.delegating cb1)⟩, h1, ⟨cb2.ptrAddr, some cb2⟩, h2,
    ?_, ?_, ?_⟩
  · simp [indirect.convert_copy_ctor, indirect.copy_ctor, hcb, hc1, mkDelegating]
  · simp [indirect.copy_ctor, hc2]
  · simp [indirect.dynTyOf, hpa, hlo, hdy]

/-- Witness for C2 at a concrete input: an object of dynamic type 1 held
by an adopting container keeps dynamic type 1 through a converting copy
and a further copy. -/
theorem c2_witness :
    ∃ b h1 b2 h2,
      indirect.convert_copy_ctor none ⟨some 0, some (.pointer 1 (.default 1) 0 0)⟩
        ⟨[(0, ⟨1, 5⟩)], 1⟩ = .ok (b, h1) ∧
      indirect.copy_ctor none b h1 = .ok (b2, h2) ∧
      b2.dynTyOf h2 = some 1 :=
  c2_dynamic_type_survives_two_copies rfl
    (HoldsTy.pointer (rfl : Heap.lookup ⟨[(0, ⟨1, 5⟩)], 1⟩ 0 = some ⟨1, 5⟩) rfl)

/-- Claim C3: copy construction from a non-empty container yields an owned
object equal in value to the source object but stored at a fresh address,
so the clone never aliases its source. -/
theorem c3_copy_is_equal_value_at_fresh_address {a : indirect} {h : Heap}
    {cb : control_block}
    (hcb : a.cb_ = some cb) (hp : a.ptr_ = cb.ptrAddr) (hv : Live cb h)
    (hw : ∀ q ∈ h.mem, q.1 < h.next) :
    ∃ b h2, indirect.copy_ctor none a h = .ok (b, h2) ∧
      b.ptr_ ≠ a.ptr_ ∧ b.valOf h2 = a.valOf h ∧ (a.valOf h).isSome = true := by
  obtain ⟨cb2, ad, o, o2, hpa, hlo, hval, hcl, hpa2⟩ := clone_fresh hv
  have had : ad < h.next := Heap.lookup_lt_next hw hlo
  refine ⟨⟨cb2.ptrAddr, some cb2⟩, ⟨(h.next, o2) :: h.mem, h.next + 1⟩,
    by simp [indirect.copy_ctor, hcb, hcl], ?_, ?_, ?_⟩
  · rw [hpa2, hp, hpa]
    simp
    omega
  · rw [indirect.valOf, indirect.valOf, hpa2, hp, hpa]
    simp [Heap.lookup_cons_self, hlo, hval]
  · rw [indirect.valOf, hp, hpa]
    simp [hlo]

/-- Witness for C3 at a concrete input: copying a container that owns the
object at address 0 puts an equal value at the fresh address 1. -/
theorem c3_witness :
    ∃ b h2,
      indirect.copy_ctor none ⟨some 0, some (.pointer 5 (.default 5) 0 0)⟩
        ⟨[(0, ⟨5, 9⟩)], 1⟩ = .ok (b, h2) ∧
      b.ptr_ ≠ some 0 ∧
      b.valOf h2 = indirect.valOf ⟨some 0, some (.pointer 5 (.default 5) 0 0)⟩
        ⟨[(0, ⟨5, 9⟩)], 1⟩ ∧
      (indirect.valOf ⟨some 0, some (.pointer 5 (.default 5) 0 0)⟩
        ⟨[(0, ⟨5, 9⟩)], 1⟩).isSome = true :=
  c3_copy_is_equal_value_at_fresh_address rfl rfl
    (Live.pointer (rfl : Heap.lookup ⟨[(0, ⟨5, 9⟩)], 1⟩ 0 = some ⟨5, 9⟩))
    (by decide)

/-- Claim C4 as stated is false: on the empty container the star operator
performs no assertion at all; it dereferences the null cached pointer with
nothing in the way, and value behaves the same way. -/
theorem c4_counterexample :
    indirect.star_const ⟨none, none⟩ ≠ AccessOutcome.assertFail ∧
    indirect.value_const ⟨none, none⟩ ≠ AccessOutcome.assertFail := by
  decide

/-- Claim C4 amended: on the empty container only the const arrow operator
is assertion-guarded; the mutable arrow operator, both star operators and
both value members perform no assertion and are flatly undefined. -/
theorem c4_amended_only_const_arrow_asserts :
    indirect.arrow_const ⟨none, none⟩ = .assertFail ∧
    indirect.arrow_mut ⟨none, none⟩ = .undef ∧
    indirect.star_const ⟨none, none⟩ = .undef ∧
    indirect.star_mut ⟨none, none⟩ = .undef ∧
    indirect.value_const ⟨none, none⟩ = .undef ∧
    indirect.value_mut ⟨none, none⟩ = .undef := by
  decide

/-- Claim C5: same-type move construction and move assignment transfer the
control block and the cached pointer of the source directly, leave the
source empty, and neither clones nor allocates: the move constructor never
touches the heap at all, and move assignment leaves the allocation counter
unchanged, only releasing what the target previously owned. -/
theorem c5_move_transfers_and_empties_source (a b p : indirect) (h : Heap) :
    indirect.move_ctor p = (⟨p.ptr_, p.cb_⟩, ⟨none, none⟩) ∧
    ((indirect.move_ctor p).2).empty = true ∧
    indirect.move_assign false a b h = (⟨b.ptr_, b.cb_⟩, ⟨none, none⟩, destroyOpt a.cb_ h) ∧
    ((indirect.move_assign false a b h).2.1).empty = true ∧
    ((indirect.move_assign false a b h).2.2).next = h.next := by
  refine ⟨rfl, rfl, rfl, rfl, ?_⟩
  simpa [indirect.move_assign] using destroyOpt_next a.cb_ h

/-- Claim C6 as stated is false: when the source owns its object through a
pointer control block and allocating the new control block fails after the
copier already produced the raw copy, the assignment leaves the target
unmodified but the copy stays in the heap owned by nobody: the heap gains
the orphan address 1 (src/indirect.h lines 49-54 pass the raw result of
the copier into the allocation of the new cell). -/
theorem c6_counterexample :
    indirect.copy_assign (some .cbAlloc) false ⟨none, none⟩
      ⟨some 0, some (.pointer 5 (.default 5) 0 0)⟩ ⟨[(0, ⟨5, 1⟩)], 1⟩ =
      .thrown ⟨none, none⟩ ⟨[(1, ⟨5, 1⟩), (0, ⟨5, 1⟩)], 2⟩ ∧
    (⟨[(1, ⟨5, 1⟩), (0, ⟨5, 1⟩)], 2⟩ : Heap).mem.map Prod.fst ≠
      (⟨[(0, ⟨5, 1⟩)], 1⟩ : Heap).mem.map Prod.fst := by
  decide

/-- Claim C6 amended: whenever the clone performed by same-type copy
assignment throws, the target container is left unmodified; and when the
failure is the payload copy itself, the heap is also left unchanged, so
nothing leaks. Only a control block allocation failing after the payload
copy succeeded leaks the copy. -/
theorem c6_amended_target_unmodified_on_clone_failure :
    (∀ (f : FailPt) (same : Bool) (self p : indirect) (h : Heap)
      (i : indirect) (h2 : Heap),
      indirect.copy_assign (some f) same self p h = .thrown i h2 → i = self) ∧
    (∀ (ty dl a : Nat) (c : Copier) (self p : indirect) (h : Heap),
      p.cb_ = some (.pointer ty c dl a) → (h.lookup a).isSome = true →
      indirect.copy_assign (some .objCopy) false self p h = .thrown self h) := by
  constructor
  · intro f same self p h i h2 heq
    cases same with
    | true => simp [indirect.copy_assign] at heq
    | false =>
      cases hcb : p.cb_ with
      | none => simp [indirect.copy_assign, hcb] at heq
      | some cb =>
        cases hcl : cb.clone (some f) h with
        | error hh =>
          simp [indirect.copy_assign, hcb, hcl] at heq
          exact heq.1.symm
        | ok pr =>
          obtain ⟨cb2, hh2⟩ := pr
          simp [indirect.copy_assign, hcb, hcl] at heq
  · intro ty dl a c self p h hcb hs
    obtain ⟨o, ho⟩ := Option.isSome_iff_exists.mp hs
    simp [indirect.copy_assign, hcb, control_block.clone, ho]

/-- Witness for the amended C6 at a concrete input: a failing payload copy
leaves the target and the heap exactly as they were. -/
theorem c6_witness :
    indirect.copy_assign (some .objCopy) false ⟨none, none⟩
      ⟨some 0, some (.pointer 5 (.default 5) 0 0)⟩ ⟨[(0, ⟨5, 1⟩)], 1⟩ =
      .thrown ⟨none, none⟩ ⟨[(0, ⟨5, 1⟩)], 1⟩ :=
  c6_amended_target_unmodified_on_clone_failure.2 5 0 0 (.default 5)
    ⟨none, none⟩ ⟨some 0, some (.pointer 5 (.default 5) 0 0)⟩
    ⟨[(0, ⟨5, 1⟩)], 1⟩ rfl rfl

/-- Claim C7: adopting a null pointer yields the empty container; adopting
a live pointer whose referent has exactly the declared dynamic type builds
a pointer control block storing the supplied copier and deleter and caches
the adopted pointer; adopting a pointer whose referent has a different
dynamic type trips the debug assertion. -/
theorem c7_adopt_null_empty_else_assert_exact_type (ty dl : Nat) (c : Copier)
    (h : Heap) :
    indirect.adopt ty none c dl h = some ⟨none, none⟩ ∧
    ∀ (a : Nat) (o : Obj), h.lookup a = some o →
      (o.dynTy = ty →
        indirect.adopt ty (some a) c dl h =
          some ⟨some a, some (.pointer ty c dl a)⟩) ∧
      (o.dynTy ≠ ty → indirect.adopt ty (some a) c dl h = none) := by
  refine ⟨rfl, ?_⟩
  intro a o hl
  constructor
  · intro hty
    simp [indirect.adopt, hl, hty]
  · intro hty
    simp [indirect.adopt, hl, hty]

/-- Witness for C7 at concrete inputs: adopting a matching referent builds
the pointer cell with the supplied strategies, and adopting a mismatched
referent trips the assertion. -/
theorem c7_witness :
    indirect.adopt 3 (some 0) (.default 3) 7 ⟨[(0, ⟨3, 4⟩)], 1⟩ =
      some ⟨some 0, some (.pointer 3 (.default 3) 7 0)⟩ ∧
    indirect.adopt 3 (some 1) (.default 3) 7 ⟨[(1, ⟨2, 4⟩)], 2⟩ = none :=
  ⟨((c7_adopt_null_empty_else_assert_exact_type 3 7 (.default 3)
      ⟨[(0, ⟨3, 4⟩)], 1⟩).2 0 ⟨3, 4⟩ rfl).1 rfl,
   ((c7_adopt_null_empty_else_assert_exact_type 3 7 (.default 3)
      ⟨[(1, ⟨2, 4⟩)], 2⟩).2 1 ⟨2, 4⟩ rfl).2 (by decide)⟩

/-- Claim C8: the member swap and the non-member swap exchange the control
blocks and cached pointers of the two containers, touch no heap at all,
and swapping twice restores both containers. -/
theorem c8_swap_exchanges_and_is_involutive (a b : indirect) :
    indirect.swap a b = (b, a) ∧ swap a b = (b, a) ∧
    indirect.swap (indirect.swap a b).1 (indirect.swap a b).2 = (a, b) := by
  exact ⟨rfl, rfl, rfl⟩

/-- Claim C9: the in-place factory with argument 5 yields a non-empty
container whose dereferenced value is 5, and a subsequent emplace with
argument 7 yields value 7 with the owned storage at a different address. -/
theorem c9_make_indirect_then_emplace (ty : Nat) :
    ((make_indirect ty 5 ⟨[], 0⟩).1).empty = false ∧
    indirect.valOf (make_indirect ty 5 ⟨[], 0⟩).1 (make_indirect ty 5 ⟨[], 0⟩).2 =
      some 5 ∧
    indirect.emplace false ty 7 (make_indirect ty 5 ⟨[], 0⟩).1
      (make_indirect ty 5 ⟨[], 0⟩).2 =
      .ok ⟨some 1, some (.direct 1)⟩ ⟨[(1, ⟨ty, 7⟩)], 2⟩ ∧
    indirect.valOf ⟨some 1, some (.direct 1)⟩ ⟨[(1, ⟨ty, 7⟩)], 2⟩ = some 7 ∧
    (⟨some 1, some (.direct 1)⟩ : indirect).ptr_ ≠
      ((make_indirect ty 5 ⟨[], 0⟩).1).ptr_ := by
  refine ⟨rfl, rfl, rfl, rfl, ?_⟩
  simp [make_indirect, Heap.alloc]

/-- Claim C10: when the payload constructor throws during emplace, the
container keeps its previous control block and cached pointer and the heap
keeps exactly its previous allocations; only the allocation counter has
advanced past the released storage of the failed cell. -/
theorem c10_emplace_failure_leaves_container_unmodified (ty : Nat) (v : Int)
    (self : indirect) (h : Heap) (hw : ∀ q ∈ h.mem, q.1 < h.next) :
    indirect.emplace true ty v self h = .thrown self ⟨h.mem, h.next + 1⟩ := by
  have hall : ∀ q ∈ h.mem, (q.1 != h.next) = true := by
    intro q hq
    have := hw q hq
    simp only [bne_iff_ne, ne_eq]
    omega
  simp [indirect.emplace, Heap.alloc, Heap.free, List.filter_cons,
    List.filter_eq_self.mpr hall]

/-- Witness for C10 at a concrete input: a throwing emplace leaves the
container owning its old object and the heap contents unchanged. -/
theorem c10_witness :
    indirect.emplace true 4 9 ⟨some 0, some (.direct 0)⟩ ⟨[(0, ⟨4, 2⟩)], 1⟩ =
      .thrown ⟨some 0, some (.direct 0)⟩ ⟨[(0, ⟨4, 2⟩)], 2⟩ :=
  c10_emplace_failure_leaves_container_unmodified 4 9 ⟨some 0, some (.direct 0)⟩
    ⟨[(0, ⟨4, 2⟩)], 1⟩ (by decide)
